import Mathlib

/-!
# PFC client scripts: team PIN auto-fill and shot tracker

Shallow embedding of `static/js/team_pin_autofill.js` (namespace `TeamPin`) and of
`shooting/static/shooting/js/shot-tracker.js` (namespace `ShotTracker`), followed by the
properties proved about them.
-/

namespace TeamPin

/-! ## Strings -/

/-- A JavaScript string, as its sequence of UTF-16 code units. -/
abbrev JSString := List Nat

/-- UTF-16 code units of one code point. -/
def utf16Char (c : Char) : List Nat :=
  if c.toNat < 0x10000 then [c.toNat]
  else [0xD800 + (c.toNat - 0x10000) / 0x400, 0xDC00 + (c.toNat - 0x10000) % 0x400]

/-- The JavaScript string denoted by a string literal. -/
def utf16 (s : String) : JSString :=
  s.data.foldr (fun c acc => utf16Char c ++ acc) []

/-- Truthiness of a string value: only the empty string is falsy. -/
def truthy (s : JSString) : Bool := !s.isEmpty

/-- Membership in the character class `[A-Za-z0-9]`. -/
def isAlnum (c : Nat) : Bool :=
  (65 ≤ c && c ≤ 90) || (97 ≤ c && c ≤ 122) || (48 ≤ c && c ≤ 57)

/-- The test `/^[A-Za-z0-9]+$/.test(s)`: one or more characters, all of the class. -/
def alnumRegexTest (s : JSString) : Bool :=
  !s.isEmpty && s.all isAlnum

/-- White space and line terminators, the code units `String.prototype.trim` strips. -/
def isWhiteSpace (c : Nat) : Bool :=
  c == 9 || c == 10 || c == 11 || c == 12 || c == 13 || c == 32 || c == 160 ||
  c == 0x1680 || (0x2000 ≤ c && c ≤ 0x200A) || c == 0x2028 || c == 0x2029 ||
  c == 0x202F || c == 0x205F || c == 0x3000 || c == 0xFEFF

/-- The method `String.prototype.trim`. -/
def trim (s : JSString) : JSString :=
  ((s.dropWhile isWhiteSpace).reverse.dropWhile isWhiteSpace).reverse

/-! ## Page state -/

/-- The four entries of `PIN_FIELD_SELECTORS`, in source order. -/
inductive Selector
  | placeholderStar
  | namePin
  | idPin
  | teamPinFieldClass
  deriving DecidableEq, Repr

/-- The constant `PIN_FIELD_SELECTORS`. -/
def PIN_FIELD_SELECTORS : List Selector :=
  [Selector.placeholderStar, Selector.namePin, Selector.idPin, Selector.teamPinFieldClass]

/-- An element of the document, reduced to what the script reads and writes.
`value` is `none` when the element has no `value` property (it reads as `undefined`); an
assigned value is kept as assigned.
`parent` identifies `parentNode` and `above` lists the ancestors of the parent.
`listens` says that an `input` listener installed by `setupPinFieldListeners` lies on the
path of an `input` event dispatched at this element. -/
structure Element where
  value : Option JSString
  hidden : Bool
  matchesPlaceholderStar : Bool
  matchesNamePin : Bool
  matchesIdPin : Bool
  hasTeamPinFieldClass : Bool
  autoFilled : Bool
  parent : Nat
  above : List Nat
  listens : Bool
  deriving DecidableEq, Repr

/-- Whether the element is selected by the given selector. -/
def Element.isMatch (e : Element) : Selector → Bool
  | Selector.placeholderStar => e.matchesPlaceholderStar
  | Selector.namePin => e.matchesNamePin
  | Selector.idPin => e.matchesIdPin
  | Selector.teamPinFieldClass => e.hasTeamPinFieldClass

/-- An element of class `auto-fill-indicator`, located by the chain of its ancestors. -/
structure Indicator where
  ancestors : List Nat
  deriving DecidableEq, Repr

/-- The state the script works on: the `localStorage` item under `STORAGE_KEY`, the
elements of the document in document order, the indicator elements, the team names of
the banners appended to the body and the number of alerts shown. -/
structure Page where
  storage : Option JSString
  elements : List Element
  indicators : List Indicator
  banners : List String
  alerts : Nat
  deriving DecidableEq, Repr

/-! ## TeamPinManager -/

/-- The method `TeamPinManager.isValidPin`, as the truthiness of its result. -/
def isValidPin (pin : JSString) : Bool :=
  truthy pin && pin.length == 6 && alnumRegexTest pin

/-- The method `TeamPinManager.savePin`: the new storage item and the returned boolean. -/
def savePin (storage : Option JSString) (pin : JSString) : Option JSString × Bool :=
  if isValidPin pin then (some pin, true) else (storage, false)

/-- The method `TeamPinManager.getPin`. -/
def getPin (storage : Option JSString) : Option JSString := storage

/-- The method `TeamPinManager.clearPin`. -/
def clearPin (_storage : Option JSString) : Option JSString := none

/-- Indices, in document order, of the elements `document.querySelectorAll(sel)` returns. -/
def querySelectorAll (pg : Page) (sel : Selector) : List Nat :=
  (List.range pg.elements.length).filter
    (fun i => match pg.elements[i]? with
      | some e => e.isMatch sel
      | none => false)

/-- The method `TeamPinManager.addAutoFillIndicator`: nothing when the parent node
already has an indicator among its descendants, else a new indicator is appended to the
parent node. -/
def addAutoFillIndicator (pg : Page) (field : Element) : Page :=
  if pg.indicators.any (fun ind => decide (field.parent ∈ ind.ancestors)) then pg
  else { pg with indicators := pg.indicators ++ [Indicator.mk (field.parent :: field.above)] }

/-- The `input` listener of `setupPinFieldListeners`, run for an event whose target holds
`value`; the deferred re-run of `autoFillPinFields` it schedules is a later task. -/
def onInput (pg : Page) (value : JSString) : Page :=
  if isValidPin (trim value) then { pg with storage := (savePin pg.storage (trim value)).1 }
  else pg

/-- Falsiness of `field.value`: `undefined` or the empty string. -/
def valueFalsy : Option JSString → Bool
  | none => true
  | some v => !truthy v

/-- A field after `field.value = savedPin` and `field.classList.add(...)`, for a control
whose value setter keeps the string it is given (a text input). A control whose setter
sanitises the string away or throws (number, date, file inputs) is not modelled. -/
def filled (savedPin : JSString) (field : Element) : Element :=
  { field with value := some savedPin, autoFilled := true }

/-- The body of the inner `forEach` of `autoFillPinFields` for the element at index `i`. -/
def fillField (savedPin : JSString) (pg : Page) (i : Nat) : Page :=
  match pg.elements[i]? with
  | none => pg
  | some field =>
    if !field.hidden && valueFalsy field.value then
      let field1 := filled savedPin field
      let pg1 := { pg with elements := pg.elements.set i field1 }
      let pg2 := addAutoFillIndicator pg1 field1
      if field1.listens then onInput pg2 savedPin else pg2
    else pg

/-- The method `TeamPinManager.autoFillPinFields`. -/
def autoFillPinFields (pg : Page) : Page :=
  match getPin pg.storage with
  | none => pg
  | some savedPin =>
    if !truthy savedPin then pg
    else PIN_FIELD_SELECTORS.foldl
      (fun pg1 sel => (querySelectorAll pg1 sel).foldl (fillField savedPin) pg1) pg

/-- What one visit of the inner `forEach` of `autoFillPinFields` makes of an element: an
unhidden element with an empty value is filled, any other is left alone. -/
def fillElem (savedPin : JSString) (e : Element) : Element :=
  if !e.hidden && valueFalsy e.value then filled savedPin e else e

/-- The method `TeamPinManager.clearAutoFillIndicators`. -/
def clearAutoFillIndicators (pg : Page) : Page :=
  { pg with
    indicators := [],
    elements := pg.elements.map (fun e => { e with autoFilled := false }) }

/-- The body of the inner `forEach` of `clearSavedTeamPin` for the element at index `i`. -/
def clearField (pg : Page) (i : Nat) : Page :=
  match pg.elements[i]? with
  | none => pg
  | some field =>
    if field.autoFilled then
      { pg with elements := pg.elements.set i { field with value := some [], autoFilled := false } }
    else pg

/-- The function `window.clearSavedTeamPin`. -/
def clearSavedTeamPin (pg : Page) : Page :=
  let pg1 := { pg with storage := clearPin pg.storage }
  let pg2 := clearAutoFillIndicators pg1
  let pg3 := PIN_FIELD_SELECTORS.foldl
    (fun p sel => (querySelectorAll p sel).foldl clearField p) pg2
  { pg3 with alerts := pg3.alerts + 1 }

/-- The function `window.getSavedTeamPin`. -/
def getSavedTeamPin (pg : Page) : Option JSString := getPin pg.storage

/-! ## The reconciliation poll -/

/-- The object `data.data` of a poll response; `team_pin` is `none` when absent or null. -/
structure TeamData where
  is_logged_in : Bool
  team_pin : Option JSString
  team_name : String
  deriving DecidableEq, Repr

/-- What one poll of `/auth/team/check/` yields: the fetch rejects, the body does not
parse, or a parsed body with the truthiness of `success` and its `data` object (`none`
when it has none). -/
inductive PollOutcome
  | networkFailure
  | unparsable
  | body (success : Bool) (data : Option TeamData)
  deriving DecidableEq, Repr

/-- The function `checkTeamSessionChanges`, from the poll outcome to the page it leaves. -/
def checkTeamSessionChanges (pg : Page) : PollOutcome → Page
  | PollOutcome.networkFailure => pg
  | PollOutcome.unparsable => pg
  | PollOutcome.body false _ => pg
  | PollOutcome.body true none => pg
  | PollOutcome.body true (some d) =>
    match d.team_pin with
    | none => pg
    | some serverPin =>
      if d.is_logged_in && truthy serverPin then
        if getPin pg.storage ≠ some serverPin then
          let pg1 := { pg with storage := (savePin pg.storage serverPin).1 }
          let pg2 := clearAutoFillIndicators pg1
          let pg3 := autoFillPinFields pg2
          { pg3 with banners := pg3.banners ++ [d.team_name] }
        else pg
      else pg

/-! ## Sample pages -/

/-- A visible PIN field that was auto-filled with the PIN `ABC123`. -/
def autoFilledField : Element :=
  { value := some (utf16 "ABC123"), hidden := false, matchesPlaceholderStar := false,
    matchesNamePin := true, matchesIdPin := false, hasTeamPinFieldClass := false,
    autoFilled := true, parent := 1, above := [0], listens := true }

/-- A visible PIN field with an empty value. -/
def emptyField : Element :=
  { value := some [], hidden := false, matchesPlaceholderStar := false,
    matchesNamePin := false, matchesIdPin := true, hasTeamPinFieldClass := false,
    autoFilled := false, parent := 2, above := [0], listens := true }

/-- A page whose persisted PIN is `ABC123`, with one field auto-filled from it (and its
indicator) and one empty field. -/
def samplePage : Page :=
  { storage := some (utf16 "ABC123"), elements := [autoFilledField, emptyField],
    indicators := [Indicator.mk [1, 0]], banners := [], alerts := 0 }

/-- A poll response for a logged-in identity with the given team PIN. -/
def samplePoll (pin : String) : PollOutcome :=
  PollOutcome.body true
    (some { is_logged_in := true, team_pin := some (utf16 pin), team_name := "Reds" })

end TeamPin

namespace ShotTracker

/-! ## Values and responses -/

/-- A primitive JavaScript value, as a property of a parsed JSON body or of the session
snapshot holds it; `undefined` is what an absent property reads as. Numbers are given by
the rational they denote. -/
inductive JSVal
  | undefined
  | null
  | bool (b : Bool)
  | num (q : ℚ)
  | str (s : String)
  deriving DecidableEq, Repr

/-- Truthiness of a value. -/
def JSVal.truthy : JSVal → Bool
  | JSVal.undefined => false
  | JSVal.null => false
  | JSVal.bool b => b
  | JSVal.num q => decide (q ≠ 0)
  | JSVal.str s => decide (s ≠ "")

/-- The expression `v || 0`. -/
def JSVal.orZero (v : JSVal) : JSVal :=
  if v.truthy then v else JSVal.num 0

/-- The comparison `v === 0`. -/
def JSVal.isZero (v : JSVal) : Bool :=
  decide (v = JSVal.num 0)

/-- The session snapshot: identifier, mode, match and inning reference, and the five
numeric fields the server computes. -/
structure Session where
  id : JSVal
  mode : JSVal
  match_id : JSVal
  inning : JSVal
  total_shots : JSVal
  total_hits : JSVal
  current_streak : JSVal
  best_streak : JSVal
  hit_rate : JSVal
  deriving DecidableEq, Repr

/-- An entry of the `unlocked` array of a shot response. -/
structure Achievement where
  icon : JSVal
  name : JSVal
  deriving DecidableEq, Repr

/-- The property `error` of a parsed body, by what `error.error || fallback` and
`new Error(...)` make of it: absent or falsy without being a string (`undefined`, `null`,
`false`, `0`), a string, or any other truthy value, given by the string `new Error`
converts it to (`42` for the number 42, `[object Object]` for an object). -/
inductive ErrorValue
  | absent
  | text (s : String)
  | other (shown : String)
  deriving DecidableEq, Repr

/-- A parsed JSON object, by the properties the widget reads from it: `error`,
`session_id`, the session properties, and the entries of `unlocked` (none when the
property is absent; an `unlocked` that is not an array of objects is not modelled). -/
structure JsonObject where
  error : ErrorValue
  session_id : JSVal
  fields : Session
  unlocked : List Achievement
  deriving DecidableEq, Repr

/-- What `response.json()` yields: a rejection with the parser's message, the value
`null`, or an object. -/
inductive Body
  | unparsable (message : String)
  | null
  | object (j : JsonObject)
  deriving DecidableEq, Repr

/-- What a `fetch` yields: a rejection with its message, or a response. -/
inductive Outcome
  | networkError (message : String)
  | response (status : Nat) (body : Body)
  deriving DecidableEq, Repr

/-- The property `response.ok`: the status is in the range 200 to 299. -/
def isOk (status : Nat) : Bool :=
  decide (200 ≤ status) && decide (status ≤ 299)

/-- The message of the `TypeError` raised when a property of `null` is read or written;
its wording belongs to the engine and is fixed here. -/
def nullAccessMessage : String := "Cannot access properties of null"

/-- A request passed to `fetch` by `apiCall`. -/
inductive Request
  | getActiveSession
  | postSessions (mode : String) (match_id : Option String) (inning : Option Int)
  | getSession (sessionId : JSVal)
  | postEvent (sessionId : JSVal) (is_hit : Bool)
  | postUndo (sessionId : JSVal)
  | postEnd (sessionId : JSVal)
  deriving DecidableEq, Repr

/-- Whether the request is one of the mutating (POST) calls. -/
def Request.mutating : Request → Bool
  | Request.getActiveSession => false
  | Request.getSession _ => false
  | _ => true

/-! ## Widget state -/

/-- The options of the constructor that the widget reads: `matchId` and `inning` are
`none` when null. -/
structure Options where
  mode : String
  matchId : Option String
  inning : Option Int
  deriving DecidableEq, Repr

/-- The active-session markup by what varies in it: the `disabled` attribute of the four
buttons and the values interpolated into the statistics (`hitRate` before it is scaled
and rounded to a percentage). -/
structure ActiveView where
  hitDisabled : Bool
  missDisabled : Bool
  streak : JSVal
  best : JSVal
  shots : JSVal
  hitRate : JSVal
  undoDisabled : Bool
  endDisabled : Bool
  deriving DecidableEq, Repr

/-- The three views the content area can show. -/
inductive View
  | noSession
  | activeSession (v : ActiveView)
  | error (message : String)
  deriving DecidableEq, Repr

/-- The async function whose continuation waits for a response. `load` is the
`loadSession` that `startSession` awaits. -/
inductive Pending
  | check
  | start
  | load
  | record
  | undo
  | endS
  deriving DecidableEq, Repr

/-- Whether the pending call is a mutating (POST) request. -/
def Pending.mutating : Pending → Bool
  | Pending.start => true
  | Pending.record => true
  | Pending.undo => true
  | Pending.endS => true
  | Pending.check => false
  | Pending.load => false

/-- Whether the pending call belongs to an operation that holds the in-flight flag. -/
def Pending.guarded : Pending → Bool
  | Pending.check => false
  | _ => true

/-- The widget: the fields of the `ShotTracker` instance, the markup of the content area,
the loading class of the widget element (both elements exist, `render` creates them),
and a record of what it has done to its environment (requests issued, calls awaiting a
response, alerts and achievement notifications shown). -/
structure Tracker where
  options : Options
  session : Option Session
  isLoading : Bool
  lastShotTime : Int
  content : View
  loadingClass : Bool
  calls : List Request
  pending : List Pending
  alerts : List String
  notifications : List Achievement
  deriving DecidableEq, Repr

/-- The field `minInterval`: 300 ms between shots. -/
def minInterval : Int := 300

/-! ## Rendering -/

/-- The method `renderNoSession`. -/
def renderNoSession : View := View.noSession

/-- The method `renderActiveSession`. -/
def renderActiveSession (t : Tracker) : View :=
  match t.session with
  | none => renderNoSession
  | some s =>
    View.activeSession
      { hitDisabled := t.isLoading,
        missDisabled := t.isLoading,
        streak := s.current_streak.orZero,
        best := s.best_streak.orZero,
        shots := s.total_shots.orZero,
        hitRate := s.hit_rate.orZero,
        undoDisabled := t.isLoading || s.total_shots.isZero,
        endDisabled := t.isLoading }

/-- The method `renderError`. -/
def renderError (message : String) : View := View.error message

/-- The method `updateContent`. -/
def updateContent (t : Tracker) (html : View) : Tracker :=
  { t with content := html }

/-- The method `setLoading`. -/
def setLoading (t : Tracker) (loading : Bool) : Tracker :=
  { t with isLoading := loading, loadingClass := loading }

/-- The method `showError`: a blocking alert. -/
def showError (t : Tracker) (message : String) : Tracker :=
  { t with alerts := t.alerts ++ ["Error: " ++ message] }

/-- The method `showAchievement`. -/
def showAchievement (t : Tracker) (a : Achievement) : Tracker :=
  { t with notifications := t.notifications ++ [a] }

/-- The method `apiCall`: the request is passed to `fetch` and `p` waits for the response. -/
def apiCall (t : Tracker) (r : Request) (p : Pending) : Tracker :=
  { t with calls := t.calls ++ [r], pending := t.pending ++ [p] }

/-- The message `error.error || fallback` of the error thrown for a response that is not
ok, where `error` is the parsed body. -/
def errorMessage (body : Body) (fallback : String) : String :=
  match body with
  | Body.unparsable message => message
  | Body.null => nullAccessMessage
  | Body.object j =>
    match j.error with
    | ErrorValue.absent => fallback
    | ErrorValue.text e => if e ≠ "" then e else fallback
    | ErrorValue.other shown => shown

/-! ## Operations

Each async method is split where it waits for the network: the part run when it is
invoked, and the part run when its response has arrived (`...Resolved`), which sees the
widget as it is at that moment. -/

/-- The method `checkActiveSession`, up to its request. -/
def checkActiveSession (t : Tracker) : Tracker :=
  apiCall t Request.getActiveSession Pending.check

/-- The method `checkActiveSession`, from the arrival of the response. -/
def checkActiveSessionResolved (t : Tracker) : Outcome → Tracker
  | Outcome.networkError _ => updateContent t (renderError "Failed to load session")
  | Outcome.response status body =>
    if isOk status then
      match body with
      | Body.unparsable _ => updateContent t (renderError "Failed to load session")
      | Body.null =>
        let t1 := { t with session := none }
        updateContent t1 (renderActiveSession t1)
      | Body.object j =>
        let t1 := { t with session := some j.fields }
        updateContent t1 (renderActiveSession t1)
    else if status = 404 then
      let t1 := { t with session := none }
      updateContent t1 renderNoSession
    else updateContent t (renderError "Failed to load session")

/-- The object `sessionData` that `startSession` posts. -/
def sessionData (o : Options) : Request :=
  Request.postSessions o.mode
    (if o.mode = "ingame" then o.matchId.filter (fun m => decide (m ≠ "")) else none)
    (o.inning.filter (fun n => decide (n ≠ 0)))

/-- The method `startSession`, up to its request. -/
def startSession (t : Tracker) : Tracker :=
  if t.isLoading then t
  else apiCall (setLoading t true) (sessionData t.options) Pending.start

/-- The method `startSession`, from the arrival of the response to `POST sessions/`: on
success `loadSession` issues its request and the flag stays set. -/
def startSessionResolved (t : Tracker) : Outcome → Tracker
  | Outcome.networkError message => setLoading (showError t message) false
  | Outcome.response status body =>
    if isOk status then
      match body with
      | Body.unparsable message => setLoading (showError t message) false
      | Body.null => setLoading (showError t nullAccessMessage) false
      | Body.object j => apiCall t (Request.getSession j.session_id) Pending.load
    else setLoading (showError t (errorMessage body "Failed to start session")) false

/-- The method `loadSession`, from the arrival of its response, followed by the `finally`
block of the `startSession` that awaits it. -/
def loadSessionResolved (t : Tracker) (o : Outcome) : Tracker :=
  let t1 :=
    match o with
    | Outcome.networkError _ => showError t "Failed to load session"
    | Outcome.response status body =>
      if isOk status then
        match body with
        | Body.unparsable _ => showError t "Failed to load session"
        | Body.null =>
          let t2 := { t with session := none }
          updateContent t2 (renderActiveSession t2)
        | Body.object j =>
          let t2 := { t with session := some j.fields }
          updateContent t2 (renderActiveSession t2)
      else showError t "Failed to load session"
  setLoading t1 false

/-- The five assignments that copy the numeric fields of a response into the snapshot. -/
def updateSessionData (s : Session) (result : JsonObject) : Session :=
  { s with
    total_shots := result.fields.total_shots,
    total_hits := result.fields.total_hits,
    current_streak := result.fields.current_streak,
    best_streak := result.fields.best_streak,
    hit_rate := result.fields.hit_rate }

/-- The method `recordShot`, up to its request, invoked when the clock reads `now`. -/
def recordShot (t : Tracker) (isHit : Bool) (now : Int) : Tracker :=
  match t.session with
  | none => t
  | some s =>
    if t.isLoading then t
    else if now - t.lastShotTime < minInterval then t
    else
      let t1 := { t with lastShotTime := now }
      apiCall (setLoading t1 true) (Request.postEvent s.id isHit) Pending.record

/-- The method `recordShot`, from the arrival of the response. -/
def recordShotResolved (t : Tracker) (o : Outcome) : Tracker :=
  let t1 :=
    match o with
    | Outcome.networkError message => showError t message
    | Outcome.response status body =>
      if isOk status then
        match body with
        | Body.unparsable message => showError t message
        | Body.null => showError t nullAccessMessage
        | Body.object result =>
          match t.session with
          | none => showError t nullAccessMessage
          | some s =>
            let t2 := { t with session := some (updateSessionData s result) }
            let t3 := result.unlocked.foldl showAchievement t2
            updateContent t3 (renderActiveSession t3)
      else showError t (errorMessage body "Failed to record shot")
  setLoading t1 false

/-- The method `undoLastShot`, up to its request. -/
def undoLastShot (t : Tracker) : Tracker :=
  match t.session with
  | none => t
  | some s =>
    if t.isLoading || s.total_shots.isZero then t
    else apiCall (setLoading t true) (Request.postUndo s.id) Pending.undo

/-- The method `undoLastShot`, from the arrival of the response. -/
def undoLastShotResolved (t : Tracker) (o : Outcome) : Tracker :=
  let t1 :=
    match o with
    | Outcome.networkError message => showError t message
    | Outcome.response status body =>
      if isOk status then
        match body with
        | Body.unparsable message => showError t message
        | Body.null => showError t nullAccessMessage
        | Body.object result =>
          match t.session with
          | none => showError t nullAccessMessage
          | some s =>
            let t2 := { t with session := some (updateSessionData s result) }
            updateContent t2 (renderActiveSession t2)
      else showError t (errorMessage body "Failed to undo shot")
  setLoading t1 false

/-- The method `endSession`, up to its request; `confirmed` is the answer to the
confirmation dialog. -/
def endSession (t : Tracker) (confirmed : Bool) : Tracker :=
  match t.session with
  | none => t
  | some s =>
    if t.isLoading then t
    else if !confirmed then t
    else apiCall (setLoading t true) (Request.postEnd s.id) Pending.endS

/-- The method `endSession`, from the arrival of the response. -/
def endSessionResolved (t : Tracker) (o : Outcome) : Tracker :=
  let t1 :=
    match o with
    | Outcome.networkError message => showError t message
    | Outcome.response status body =>
      if isOk status then
        let t2 := { t with session := none }
        updateContent t2 renderNoSession
      else showError t (errorMessage body "Failed to end session")
  setLoading t1 false

/-- The continuation of a pending call. -/
def resume (t : Tracker) (p : Pending) (o : Outcome) : Tracker :=
  match p with
  | Pending.check => checkActiveSessionResolved t o
  | Pending.start => startSessionResolved t o
  | Pending.load => loadSessionResolved t o
  | Pending.record => recordShotResolved t o
  | Pending.undo => undoLastShotResolved t o
  | Pending.endS => endSessionResolved t o

/-- What can happen to the widget: one of its methods is invoked (by a button, a key or
the retry link), or the response to a pending call arrives. -/
inductive Event
  | checkActiveSession
  | startSession
  | recordShot (isHit : Bool) (now : Int)
  | undoLastShot
  | endSession (confirmed : Bool)
  | resolve (p : Pending) (o : Outcome)
  deriving DecidableEq, Repr

/-- One event; the response to a call that is not pending does not occur. -/
def step (t : Tracker) : Event → Tracker
  | Event.checkActiveSession => checkActiveSession t
  | Event.startSession => startSession t
  | Event.recordShot isHit now => recordShot t isHit now
  | Event.undoLastShot => undoLastShot t
  | Event.endSession confirmed => endSession t confirmed
  | Event.resolve p o =>
    if p ∈ t.pending then resume { t with pending := t.pending.erase p } p o else t

/-- A sequence of events, in order. -/
def run (t : Tracker) (events : List Event) : Tracker :=
  events.foldl step t

/-- The widget after `new ShotTracker(container, options)`: the constructor sets the
fields, `render` shows the no-session view and `checkActiveSession` issues its request. -/
def init (options : Options) : Tracker :=
  checkActiveSession
    { options := options, session := none, isLoading := false, lastShotTime := 0,
      content := renderNoSession, loadingClass := false, calls := [], pending := [],
      alerts := [], notifications := [] }

/-- Number of mutating requests awaiting their response. -/
def mutatingInFlight (t : Tracker) : Nat :=
  t.pending.countP Pending.mutating

/-- Number of `POST .../event/` requests issued so far. -/
def shotCalls (t : Tracker) : Nat :=
  t.calls.countP (fun r => match r with
    | Request.postEvent _ _ => true
    | _ => false)

/-- Number of pending calls whose operation holds the in-flight flag. -/
def guardedInFlight (t : Tracker) : Nat :=
  t.pending.countP Pending.guarded

/-- The invariant of the in-flight flag: it is set exactly when one guarded call is
pending, and no guarded call is pending when it is clear. -/
def FlagInv (t : Tracker) : Prop :=
  guardedInFlight t = if t.isLoading then 1 else 0

/-- The static fallback string of the method behind each pending call. -/
def fallbackMessage : Pending → String
  | Pending.check => "Failed to load session"
  | Pending.load => "Failed to load session"
  | Pending.start => "Failed to start session"
  | Pending.record => "Failed to record shot"
  | Pending.undo => "Failed to undo shot"
  | Pending.endS => "Failed to end session"

/-- The clock reading of an event when it is a tap that issues a request, else nothing. -/
def tapIssuing (t : Tracker) : Event → List Int
  | Event.recordShot isHit now =>
    if (recordShot t isHit now).calls ≠ t.calls then [now] else []
  | _ => []

/-- Clock readings, in order, of the taps in a sequence of events that issue a request. -/
def issuingTaps (t : Tracker) : List Event → List Int
  | [] => []
  | e :: rest => tapIssuing t e ++ issuingTaps (step t e) rest

/-! ## Sample states -/

/-- A snapshot with three shots recorded, all of them hits. -/
def sampleSession : Session :=
  { id := JSVal.num 7, mode := JSVal.str "practice", match_id := JSVal.null,
    inning := JSVal.null, total_shots := JSVal.num 3, total_hits := JSVal.num 3,
    current_streak := JSVal.num 3, best_streak := JSVal.num 3, hit_rate := JSVal.num 1 }

/-- A widget showing `sampleSession` with every button enabled and nothing in flight, as
`checkActiveSession` leaves it when the page loads. -/
def activeTracker : Tracker :=
  { options := { mode := "practice", matchId := none, inning := none },
    session := some sampleSession, isLoading := false, lastShotTime := 0,
    content := View.activeSession
      { hitDisabled := false, missDisabled := false, streak := JSVal.num 3,
        best := JSVal.num 3, shots := JSVal.num 3, hitRate := JSVal.num 1,
        undoDisabled := false, endDisabled := false },
    loadingClass := false, calls := [Request.getActiveSession], pending := [],
    alerts := [], notifications := [] }

/-- The body of a successful shot response: four shots, four hits. -/
def sampleResult : JsonObject :=
  { error := ErrorValue.absent, session_id := JSVal.undefined,
    fields :=
      { id := JSVal.undefined, mode := JSVal.undefined, match_id := JSVal.undefined,
        inning := JSVal.undefined, total_shots := JSVal.num 4, total_hits := JSVal.num 4,
        current_streak := JSVal.num 4, best_streak := JSVal.num 4,
        hit_rate := JSVal.num 1 },
    unlocked := [] }

/-- A snapshot with no shot recorded yet. -/
def freshSession : Session :=
  { id := JSVal.num 8, mode := JSVal.str "practice", match_id := JSVal.null,
    inning := JSVal.null, total_shots := JSVal.num 0, total_hits := JSVal.num 0,
    current_streak := JSVal.num 0, best_streak := JSVal.num 0, hit_rate := JSVal.num 0 }

/-- A widget showing `freshSession` with nothing in flight. -/
def freshTracker : Tracker :=
  { options := { mode := "practice", matchId := none, inning := none },
    session := some freshSession, isLoading := false, lastShotTime := 0,
    content := View.activeSession
      { hitDisabled := false, missDisabled := false, streak := JSVal.num 0,
        best := JSVal.num 0, shots := JSVal.num 0, hitRate := JSVal.num 0,
        undoDisabled := true, endDisabled := false },
    loadingClass := false, calls := [Request.getActiveSession], pending := [],
    alerts := [], notifications := [] }

/-- The body of an error response that carries an error string. -/
def sampleError : JsonObject :=
  { error := ErrorValue.text "Session already ended", session_id := JSVal.undefined,
    fields :=
      { id := JSVal.undefined, mode := JSVal.undefined, match_id := JSVal.undefined,
        inning := JSVal.undefined, total_shots := JSVal.undefined,
        total_hits := JSVal.undefined, current_streak := JSVal.undefined,
        best_streak := JSVal.undefined, hit_rate := JSVal.undefined },
    unlocked := [] }

/-- The body of an error response whose `error` is the number 42. -/
def numericError : JsonObject :=
  { error := ErrorValue.other "42", session_id := JSVal.undefined,
    fields :=
      { id := JSVal.undefined, mode := JSVal.undefined, match_id := JSVal.undefined,
        inning := JSVal.undefined, total_shots := JSVal.undefined,
        total_hits := JSVal.undefined, current_streak := JSVal.undefined,
        best_streak := JSVal.undefined, hit_rate := JSVal.undefined },
    unlocked := [] }

end ShotTracker

namespace TeamPin

/-! ## Properties of the PIN manager -/

theorem isValidPin_iff (p : JSString) :
    isValidPin p = true ↔ p.length = 6 ∧ ∀ c ∈ p, isAlnum c = true := by
  unfold isValidPin truthy alnumRegexTest
  constructor
  · intro h
    simp only [Bool.and_eq_true, beq_iff_eq, List.all_eq_true] at h
    exact ⟨h.1.2, h.2.2⟩
  · rintro ⟨h6, hall⟩
    have hne : p.isEmpty = false := by
      cases p with
      | nil => simp at h6
      | cons a l => rfl
    simp only [hne, h6, List.all_eq_true, Bool.not_false, beq_self_eq_true, Bool.and_self,
      Bool.true_and]
    exact hall

theorem isWhiteSpace_of_isAlnum (c : Nat) (h : isAlnum c = true) : isWhiteSpace c = false := by
  simp only [isAlnum, Bool.or_eq_true, Bool.and_eq_true, decide_eq_true_eq] at h
  simp only [isWhiteSpace, Bool.or_eq_false_iff, Bool.and_eq_false_iff, beq_eq_false_iff_ne,
    decide_eq_false_iff_not]
  omega

theorem dropWhile_of_all_false (f : Nat → Bool) (l : List Nat)
    (h : ∀ c ∈ l, f c = false) : l.dropWhile f = l := by
  cases l with
  | nil => rfl
  | cons a l => simp [List.dropWhile, h a (List.mem_cons_self a l)]

theorem trim_of_isValidPin (p : JSString) (h : isValidPin p = true) : trim p = p := by
  have hall := ((isValidPin_iff p).1 h).2
  have h1 : p.dropWhile isWhiteSpace = p :=
    dropWhile_of_all_false _ _ (fun c hc => isWhiteSpace_of_isAlnum c (hall c hc))
  have h2 : p.reverse.dropWhile isWhiteSpace = p.reverse :=
    dropWhile_of_all_false _ _
      (fun c hc => isWhiteSpace_of_isAlnum c (hall c (List.mem_reverse.1 hc)))
  simp [trim, h1, h2]

/-- Claim C1: `savePin p` stores `p` and returns `true` exactly when `p` has six code units, all
in `[A-Za-z0-9]`; for every other string it returns `false` and leaves the stored item as
it was. -/
theorem savePin_stores_iff_six_alnum (storage : Option JSString) (p : JSString) :
    (savePin storage p = (some p, true) ↔ (p.length = 6 ∧ ∀ c ∈ p, isAlnum c = true)) ∧
    ((savePin storage p).2 = true ↔ (p.length = 6 ∧ ∀ c ∈ p, isAlnum c = true)) ∧
    (¬ (p.length = 6 ∧ ∀ c ∈ p, isAlnum c = true) → savePin storage p = (storage, false)) := by
  rw [← isValidPin_iff]
  unfold savePin
  cases hv : isValidPin p <;> simp

/-! ## What `autoFillPinFields` does to each element -/

theorem addAutoFillIndicator_elements (pg : Page) (f : Element) :
    (addAutoFillIndicator pg f).elements = pg.elements := by
  unfold addAutoFillIndicator
  split <;> rfl

theorem onInput_elements (pg : Page) (v : JSString) : (onInput pg v).elements = pg.elements := by
  unfold onInput
  split <;> rfl

theorem fillField_elements (sp : JSString) (pg : Page) (i : Nat) :
    (fillField sp pg i).elements =
      match pg.elements[i]? with
      | none => pg.elements
      | some f =>
        if !f.hidden && valueFalsy f.value then pg.elements.set i (filled sp f)
        else pg.elements := by
  unfold fillField
  cases h : pg.elements[i]? with
  | none => rfl
  | some f =>
    simp only
    split
    · split <;> simp [onInput_elements, addAutoFillIndicator_elements, filled]
    · rfl

theorem fillField_getElem? (sp : JSString) (pg : Page) (j i : Nat) :
    (fillField sp pg j).elements[i]? =
      if j = i then (pg.elements[i]?).map (fillElem sp) else pg.elements[i]? := by
  rw [fillField_elements]
  by_cases hij : j = i
  · subst hij
    rw [if_pos rfl]
    cases hj : pg.elements[j]? with
    | none => simp [hj]
    | some g =>
      have hlt : j < pg.elements.length := (List.getElem?_eq_some.1 hj).1
      by_cases hc : (!g.hidden && valueFalsy g.value) = true
      · simp only [hc, if_true, Option.map_some', fillElem]
        rw [List.getElem?_set_self hlt]
      · simp only [hc, if_false, Option.map_some', fillElem, hj, Bool.false_eq_true]
  · rw [if_neg hij]
    cases hj : pg.elements[j]? with
    | none => rfl
    | some g =>
      simp only
      split
      · rw [List.getElem?_set_ne hij]
      · rfl

theorem fillElem_idem (sp : JSString) (hsp : truthy sp = true) (e : Element) :
    fillElem sp (fillElem sp e) = fillElem sp e := by
  by_cases hc : (!e.hidden && valueFalsy e.value) = true
  · have h1 : fillElem sp e = filled sp e := by simp [fillElem, hc]
    have h2 : valueFalsy (filled sp e).value = false := by simp [filled, valueFalsy, hsp]
    rw [h1]
    simp [fillElem, h2]
  · have h1 : fillElem sp e = e := by simp [fillElem, hc]
    rw [h1, h1]

theorem fillElem_isMatch (sp : JSString) (e : Element) (sel : Selector) :
    (fillElem sp e).isMatch sel = e.isMatch sel := by
  unfold fillElem
  split <;> cases sel <;> rfl

theorem foldl_fillField_getElem? (sp : JSString) (hsp : truthy sp = true) (i : Nat)
    (l : List Nat) :
    ∀ pg : Page, (l.foldl (fillField sp) pg).elements[i]? =
      if i ∈ l then (pg.elements[i]?).map (fillElem sp) else pg.elements[i]? := by
  induction l with
  | nil => intro pg; simp
  | cons a l ih =>
    intro pg
    rw [List.foldl_cons, ih, fillField_getElem?]
    by_cases hai : a = i
    · subst hai
      simp only [if_true, List.mem_cons, true_or]
      split
      · cases pg.elements[a]? with
        | none => rfl
        | some e => simp [fillElem_idem sp hsp]
      · rfl
    · have hia : ¬ i = a := fun h => hai h.symm
      simp only [hai, if_false, List.mem_cons, hia, false_or]

theorem mem_querySelectorAll (pg : Page) (sel : Selector) (i : Nat) :
    i ∈ querySelectorAll pg sel ↔ ∃ e, pg.elements[i]? = some e ∧ e.isMatch sel = true := by
  unfold querySelectorAll
  rw [List.mem_filter, List.mem_range]
  constructor
  · rintro ⟨hlt, hm⟩
    rw [List.getElem?_eq_getElem hlt] at hm
    exact ⟨pg.elements[i], List.getElem?_eq_getElem hlt, hm⟩
  · rintro ⟨e, he, hm⟩
    refine ⟨(List.getElem?_eq_some.1 he).1, ?_⟩
    rw [he]
    exact hm

theorem selector_pass_getElem? (sp : JSString) (hsp : truthy sp = true) (pg : Page)
    (sel : Selector) (i : Nat) :
    ((querySelectorAll pg sel).foldl (fillField sp) pg).elements[i]? =
      (pg.elements[i]?).map (fun e => if e.isMatch sel then fillElem sp e else e) := by
  rw [foldl_fillField_getElem? sp hsp]
  by_cases hmem : i ∈ querySelectorAll pg sel
  · rw [if_pos hmem]
    obtain ⟨e, he, hm⟩ := (mem_querySelectorAll pg sel i).1 hmem
    simp [he, hm]
  · rw [if_neg hmem]
    cases he : pg.elements[i]? with
    | none => rfl
    | some e =>
      have hm : ¬ e.isMatch sel = true :=
        fun hm => hmem ((mem_querySelectorAll pg sel i).2 ⟨e, he, hm⟩)
      simp [hm]

theorem selectors_getElem? (sp : JSString) (hsp : truthy sp = true) (i : Nat)
    (sels : List Selector) :
    ∀ pg : Page,
      (sels.foldl (fun p sel => (querySelectorAll p sel).foldl (fillField sp) p) pg).elements[i]? =
      (pg.elements[i]?).map
        (fun e => if sels.any (fun sel => e.isMatch sel) then fillElem sp e else e) := by
  induction sels with
  | nil => intro pg; simp
  | cons a l ih =>
    intro pg
    rw [List.foldl_cons, ih, selector_pass_getElem? sp hsp]
    cases pg.elements[i]? with
    | none => rfl
    | some e =>
      simp only [Option.map_some', List.any_cons]
      by_cases hm : e.isMatch a = true
      · simp [hm, fillElem_idem sp hsp, fillElem_isMatch]
      · simp [hm]

/-- With a non-empty persisted PIN, `autoFillPinFields` fills exactly the unhidden, empty
elements that some selector of `PIN_FIELD_SELECTORS` selects. -/
theorem autoFillPinFields_getElem? (pg : Page) (sp : JSString) (hs : pg.storage = some sp)
    (hsp : truthy sp = true) (i : Nat) :
    (autoFillPinFields pg).elements[i]? =
      (pg.elements[i]?).map (fun e =>
        if PIN_FIELD_SELECTORS.any (fun sel => e.isMatch sel) then fillElem sp e else e) := by
  unfold autoFillPinFields getPin
  rw [hs]
  simp only [hsp, Bool.not_true, Bool.false_eq_true, if_false]
  exact selectors_getElem? sp hsp i _ pg

theorem autoFillPinFields_of_no_pin (pg : Page)
    (h : ∀ sp, pg.storage = some sp → truthy sp = false) : autoFillPinFields pg = pg := by
  unfold autoFillPinFields getPin
  cases hs : pg.storage with
  | none => rfl
  | some sp => simp [h sp hs]

/-- Claim C5: `autoFillPinFields` leaves every element whose value was non-empty before the call
as it was; an element whose value differs afterwards was not hidden, had an empty (or
no) value, and now holds the persisted PIN. -/
theorem autoFillPinFields_keeps_nonempty_values (pg : Page) (i : Nat) (f : Element)
    (hf : pg.elements[i]? = some f) :
    (valueFalsy f.value = false → (autoFillPinFields pg).elements[i]? = some f) ∧
    (∃ g, (autoFillPinFields pg).elements[i]? = some g ∧
      (g.value ≠ f.value →
        f.hidden = false ∧ valueFalsy f.value = true ∧ g.value = pg.storage)) := by
  by_cases hp : ∃ sp, pg.storage = some sp ∧ truthy sp = true
  · obtain ⟨sp, hs, hsp⟩ := hp
    rw [autoFillPinFields_getElem? pg sp hs hsp, hf]
    simp only [Option.map_some', Option.some.injEq, exists_eq_left']
    by_cases hc : (!f.hidden && valueFalsy f.value) = true
    · have hc2 := hc
      simp only [Bool.and_eq_true, Bool.not_eq_true'] at hc2
      refine ⟨fun hv => ?_, fun hne => ⟨hc2.1, hc2.2, ?_⟩⟩
      · rw [hc2.2] at hv
        cases hv
      · rw [hs]
        by_cases hany : PIN_FIELD_SELECTORS.any (fun sel => f.isMatch sel) = true
        · simp [hany, fillElem, hc, filled]
        · rw [if_neg hany] at hne
          exact absurd rfl hne
    · have hfe : fillElem sp f = f := by simp [fillElem, hc]
      simp only [hfe, ite_self]
      exact ⟨fun _ => trivial, fun hne => absurd rfl hne⟩
  · have hno : autoFillPinFields pg = pg := by
      apply autoFillPinFields_of_no_pin
      intro sp hs
      cases ht : truthy sp with
      | false => rfl
      | true => exact absurd ⟨sp, hs, ht⟩ hp
    rw [hno]
    exact ⟨fun _ => hf, f, hf, fun hne => absurd rfl hne⟩

/-- Witness for claim C5 on `samplePage`: the field holding `ABC123` is left as it was. -/
theorem autoFillPinFields_keeps_nonempty_values_witness :
    samplePage.elements[0]? = some autoFilledField ∧
    (autoFillPinFields samplePage).elements[0]? = some autoFilledField :=
  ⟨by decide,
   (autoFillPinFields_keeps_nonempty_values samplePage 0 autoFilledField (by decide)).1
     (by decide)⟩

/-! ## The reconciliation poll -/

theorem truthy_of_isValidPin (p : JSString) (h : isValidPin p = true) : truthy p = true := by
  unfold isValidPin at h
  simp only [Bool.and_eq_true] at h
  exact h.1.1

theorem addAutoFillIndicator_storage (pg : Page) (f : Element) :
    (addAutoFillIndicator pg f).storage = pg.storage := by
  unfold addAutoFillIndicator
  split <;> rfl

theorem fillField_storage (sp : JSString) (hv : isValidPin sp = true) (pg : Page) (i : Nat)
    (h : pg.storage = some sp) : (fillField sp pg i).storage = some sp := by
  unfold fillField
  cases pg.elements[i]? with
  | none => exact h
  | some f =>
    simp only
    split
    · split
      · unfold onInput
        rw [trim_of_isValidPin sp hv]
        simp [hv, savePin]
      · rw [addAutoFillIndicator_storage]
        exact h
    · exact h

theorem foldl_fillField_storage (sp : JSString) (hv : isValidPin sp = true) (l : List Nat) :
    ∀ pg : Page, pg.storage = some sp → (l.foldl (fillField sp) pg).storage = some sp := by
  induction l with
  | nil => intro pg h; exact h
  | cons a l ih => intro pg h; exact ih _ (fillField_storage sp hv pg a h)

theorem selectors_storage (sp : JSString) (hv : isValidPin sp = true) (sels : List Selector) :
    ∀ pg : Page, pg.storage = some sp →
      (sels.foldl (fun p sel => (querySelectorAll p sel).foldl (fillField sp) p) pg).storage =
        some sp := by
  induction sels with
  | nil => intro pg h; exact h
  | cons a l ih => intro pg h; exact ih _ (foldl_fillField_storage sp hv _ pg h)

theorem autoFillPinFields_storage (pg : Page) (sp : JSString) (hs : pg.storage = some sp)
    (hv : isValidPin sp = true) : (autoFillPinFields pg).storage = some sp := by
  unfold autoFillPinFields getPin
  rw [hs]
  simp only [truthy_of_isValidPin sp hv, Bool.not_true, Bool.false_eq_true, if_false]
  exact selectors_storage sp hv _ pg hs

theorem autoFillPinFields_getElem?_of_nonempty (pg : Page) (i : Nat) (f : Element)
    (hf : pg.elements[i]? = some f) (hv : valueFalsy f.value = false) :
    (autoFillPinFields pg).elements[i]? = some f := by
  by_cases hp : ∃ sp, pg.storage = some sp ∧ truthy sp = true
  · obtain ⟨sp, hs, hsp⟩ := hp
    rw [autoFillPinFields_getElem? pg sp hs hsp, hf]
    simp [fillElem, hv]
  · have hno : autoFillPinFields pg = pg := by
      apply autoFillPinFields_of_no_pin
      intro sp hs
      cases ht : truthy sp with
      | false => rfl
      | true => exact absurd ⟨sp, hs, ht⟩ hp
    rw [hno]
    exact hf

theorem checkTeamSessionChanges_cases (pg : Page) (o : PollOutcome) :
    checkTeamSessionChanges pg o = pg ∨
    ∃ (st : Option JSString) (name : String),
      checkTeamSessionChanges pg o =
        { autoFillPinFields (clearAutoFillIndicators { pg with storage := st }) with
          banners :=
            (autoFillPinFields (clearAutoFillIndicators { pg with storage := st })).banners ++
              [name] } := by
  cases o with
  | networkFailure => exact Or.inl rfl
  | unparsable => exact Or.inl rfl
  | body success data =>
    cases success with
    | false => exact Or.inl rfl
    | true =>
      cases data with
      | none => exact Or.inl rfl
      | some d =>
        simp only [checkTeamSessionChanges]
        cases d.team_pin with
        | none => exact Or.inl rfl
        | some serverPin =>
          simp only
          split
          · split
            · exact Or.inr ⟨_, _, rfl⟩
            · exact Or.inl rfl
          · exact Or.inl rfl

/-- On every page and for every poll outcome, `checkTeamSessionChanges` leaves the value of
every element that held a non-empty value as it was: a field filled with the old PIN is
never given the server PIN. -/
theorem checkTeamSessionChanges_keeps_nonempty_values (pg : Page) (o : PollOutcome) (i : Nat)
    (f : Element) (hf : pg.elements[i]? = some f) (hv : valueFalsy f.value = false) :
    ∃ g, (checkTeamSessionChanges pg o).elements[i]? = some g ∧ g.value = f.value := by
  rcases checkTeamSessionChanges_cases pg o with h | ⟨st, name, h⟩
  · rw [h]
    exact ⟨f, hf, rfl⟩
  · rw [h]
    have hel : (clearAutoFillIndicators { pg with storage := st }).elements[i]? =
        some { f with autoFilled := false } := by
      simp [clearAutoFillIndicators, hf]
    exact ⟨{ f with autoFilled := false },
      autoFillPinFields_getElem?_of_nonempty _ i _ hel hv, rfl⟩

/-- Claim C6 fails on `samplePage`, whose persisted PIN is `ABC123` and whose first field
had been auto-filled with it. Polled with the valid PIN `NEW123`, the persisted PIN
becomes `NEW123` but the field that had been auto-filled still holds `ABC123`. Polled with
the five-character PIN `NEW12`, the persisted PIN stays `ABC123`, the empty field is
filled with the old `ABC123`, and the banner is shown all the same. -/
theorem checkTeamSessionChanges_leaves_old_pin :
    samplePage.storage = some (utf16 "ABC123") ∧
    samplePage.elements.map (fun e => (e.autoFilled, e.value)) =
      [(true, some (utf16 "ABC123")), (false, some [])] ∧
    (checkTeamSessionChanges samplePage (samplePoll "NEW123")).storage =
      some (utf16 "NEW123") ∧
    (checkTeamSessionChanges samplePage (samplePoll "NEW123")).elements.map
      (fun e => e.value) = [some (utf16 "ABC123"), some (utf16 "NEW123")] ∧
    (checkTeamSessionChanges samplePage (samplePoll "NEW12")).storage =
      some (utf16 "ABC123") ∧
    (checkTeamSessionChanges samplePage (samplePoll "NEW12")).elements.map
      (fun e => e.value) = [some (utf16 "ABC123"), some (utf16 "ABC123")] ∧
    (checkTeamSessionChanges samplePage (samplePoll "NEW12")).banners = ["Reds"] := by
  decide

/-! ## Clearing the persisted PIN -/

theorem clearField_of_unmarked (pg : Page) (i : Nat)
    (h : ∀ e ∈ pg.elements, e.autoFilled = false) : clearField pg i = pg := by
  unfold clearField
  cases hi : pg.elements[i]? with
  | none => rfl
  | some f =>
    have hf : f.autoFilled = false := h f (List.getElem?_mem hi)
    simp [hf]

theorem foldl_clearField_of_unmarked (l : List Nat) (pg : Page)
    (h : ∀ e ∈ pg.elements, e.autoFilled = false) : l.foldl clearField pg = pg := by
  induction l with
  | nil => rfl
  | cons a l ih => rw [List.foldl_cons, clearField_of_unmarked pg a h, ih]

theorem selectors_clearField_of_unmarked (sels : List Selector) (pg : Page)
    (h : ∀ e ∈ pg.elements, e.autoFilled = false) :
    sels.foldl (fun p sel => (querySelectorAll p sel).foldl clearField p) pg = pg := by
  induction sels with
  | nil => rfl
  | cons a l ih => rw [List.foldl_cons, foldl_clearField_of_unmarked _ pg h, ih]

/-- On every page, `clearSavedTeamPin` leaves the value of every element as it was: its
loop over the PIN fields finds no element marked `auto-filled`. -/
theorem clearSavedTeamPin_values (pg : Page) :
    (clearSavedTeamPin pg).elements.map (fun e => e.value) =
      pg.elements.map (fun e => e.value) := by
  have h : ∀ e ∈ (clearAutoFillIndicators { pg with storage := clearPin pg.storage }).elements,
      e.autoFilled = false := by
    intro e he
    simp only [clearAutoFillIndicators, List.mem_map] at he
    obtain ⟨e0, _, rfl⟩ := he
    rfl
  unfold clearSavedTeamPin
  simp only [selectors_clearField_of_unmarked _ _ h]
  simp [clearAutoFillIndicators, List.map_map, Function.comp_def]

/-- Claim C7 fails on `samplePage`: `clearSavedTeamPin` removes the persisted PIN and every
indicator, but the field that had been auto-filled keeps its value `ABC123`, because
`clearAutoFillIndicators` has already removed the `auto-filled` mark the loop tests. -/
theorem clearSavedTeamPin_keeps_autofilled_value :
    samplePage.elements.map (fun e => (e.autoFilled, e.value)) =
      [(true, some (utf16 "ABC123")), (false, some [])] ∧
    (clearSavedTeamPin samplePage).storage = none ∧
    (clearSavedTeamPin samplePage).indicators = [] ∧
    (clearSavedTeamPin samplePage).elements.map (fun e => (e.autoFilled, e.value)) =
      [(false, some (utf16 "ABC123")), (false, some [])] := by
  decide

/-! ## Silent polls -/

/-- Claim C14: when the poll ends in a network failure or an unparsable body, or its
response has a falsy `success`, no `data` object, an identity that is not logged in, an
empty or absent `team_pin`, or a `team_pin` equal to the persisted PIN, then
`checkTeamSessionChanges` leaves the page as it is: persisted PIN, every field value and
every indicator unchanged, and no banner added. -/
theorem checkTeamSessionChanges_silent (pg : Page) (o : PollOutcome)
    (h : o = PollOutcome.networkFailure ∨ o = PollOutcome.unparsable ∨
      (∃ d, o = PollOutcome.body false d) ∨ o = PollOutcome.body true none ∨
      ∃ d, o = PollOutcome.body true (some d) ∧
        (d.is_logged_in = false ∨ d.team_pin = none ∨ d.team_pin = some [] ∨
          d.team_pin = pg.storage)) :
    checkTeamSessionChanges pg o = pg ∧
    (checkTeamSessionChanges pg o).storage = pg.storage ∧
    (checkTeamSessionChanges pg o).elements = pg.elements ∧
    (checkTeamSessionChanges pg o).indicators = pg.indicators ∧
    (checkTeamSessionChanges pg o).banners = pg.banners := by
  have hq : checkTeamSessionChanges pg o = pg := by
    rcases h with h | h | ⟨d, h⟩ | h | ⟨d, h, hd⟩
    · subst h; rfl
    · subst h; rfl
    · subst h; rfl
    · subst h; rfl
    · subst h
      simp only [checkTeamSessionChanges]
      cases hp : d.team_pin with
      | none => rfl
      | some serverPin =>
        simp only
        rcases hd with hd | hd | hd | hd
        · simp [hd]
        · rw [hp] at hd
          cases hd
        · rw [hp] at hd
          cases hd
          simp [truthy]
        · rw [hp] at hd
          simp [getPin, ← hd]
  exact ⟨hq, by rw [hq], by rw [hq], by rw [hq], by rw [hq]⟩

/-- Witness for claim C14: `samplePage` polled with its own persisted PIN `ABC123`. -/
theorem checkTeamSessionChanges_silent_witness :
    checkTeamSessionChanges samplePage (samplePoll "ABC123") = samplePage :=
  (checkTeamSessionChanges_silent samplePage (samplePoll "ABC123")
    (Or.inr (Or.inr (Or.inr (Or.inr
      ⟨{ is_logged_in := true, team_pin := some (utf16 "ABC123"), team_name := "Reds" },
        rfl, Or.inr (Or.inr (Or.inr rfl))⟩))))).1

end TeamPin

namespace ShotTracker

/-! ## Frame lemmas -/

theorem foldl_showAchievement (l : List Achievement) :
    ∀ t : Tracker, l.foldl showAchievement t =
      { t with notifications := t.notifications ++ l } := by
  induction l with
  | nil => intro t; simp
  | cons a l ih => intro t; simp [List.foldl_cons, ih, showAchievement]

theorem checkActiveSessionResolved_frame (t : Tracker) (o : Outcome) :
    (checkActiveSessionResolved t o).pending = t.pending ∧
    (checkActiveSessionResolved t o).calls = t.calls ∧
    (checkActiveSessionResolved t o).lastShotTime = t.lastShotTime ∧
    (checkActiveSessionResolved t o).isLoading = t.isLoading := by
  unfold checkActiveSessionResolved
  cases o with
  | networkError m => simp [updateContent]
  | response status body =>
    simp only
    split
    · cases body <;> simp [updateContent]
    · split <;> simp [updateContent]

theorem startSessionResolved_frame (t : Tracker) (o : Outcome) :
    (startSessionResolved t o).lastShotTime = t.lastShotTime ∧
    shotCalls (startSessionResolved t o) = shotCalls t ∧
    (((startSessionResolved t o).pending = t.pending ∧
        (startSessionResolved t o).isLoading = false) ∨
      ((startSessionResolved t o).pending = t.pending ++ [Pending.load] ∧
        (startSessionResolved t o).isLoading = t.isLoading)) := by
  unfold startSessionResolved
  cases o with
  | networkError m => simp [setLoading, showError, shotCalls]
  | response status body =>
    simp only
    split
    · cases body <;> simp [setLoading, showError, shotCalls, apiCall]
    · simp [setLoading, showError, shotCalls]

theorem loadSessionResolved_frame (t : Tracker) (o : Outcome) :
    (loadSessionResolved t o).pending = t.pending ∧
    (loadSessionResolved t o).calls = t.calls ∧
    (loadSessionResolved t o).lastShotTime = t.lastShotTime ∧
    (loadSessionResolved t o).isLoading = false := by
  unfold loadSessionResolved
  cases o with
  | networkError m => simp [setLoading, showError]
  | response status body =>
    simp only
    split
    · cases body <;> simp [setLoading, showError, updateContent]
    · simp [setLoading, showError]

theorem recordShotResolved_frame (t : Tracker) (o : Outcome) :
    (recordShotResolved t o).pending = t.pending ∧
    (recordShotResolved t o).calls = t.calls ∧
    (recordShotResolved t o).lastShotTime = t.lastShotTime ∧
    (recordShotResolved t o).isLoading = false := by
  unfold recordShotResolved
  cases o with
  | networkError m => simp [setLoading, showError]
  | response status body =>
    simp only
    split
    · cases body with
      | unparsable m => simp [setLoading, showError]
      | null => simp [setLoading, showError]
      | object j =>
        cases hs : t.session <;>
          simp [setLoading, showError, updateContent, foldl_showAchievement]
    · simp [setLoading, showError]

theorem undoLastShotResolved_frame (t : Tracker) (o : Outcome) :
    (undoLastShotResolved t o).pending = t.pending ∧
    (undoLastShotResolved t o).calls = t.calls ∧
    (undoLastShotResolved t o).lastShotTime = t.lastShotTime ∧
    (undoLastShotResolved t o).isLoading = false := by
  unfold undoLastShotResolved
  cases o with
  | networkError m => simp [setLoading, showError]
  | response status body =>
    simp only
    split
    · cases body with
      | unparsable m => simp [setLoading, showError]
      | null => simp [setLoading, showError]
      | object j =>
        cases hs : t.session <;> simp [setLoading, showError, updateContent]
    · simp [setLoading, showError]

theorem endSessionResolved_frame (t : Tracker) (o : Outcome) :
    (endSessionResolved t o).pending = t.pending ∧
    (endSessionResolved t o).calls = t.calls ∧
    (endSessionResolved t o).lastShotTime = t.lastShotTime ∧
    (endSessionResolved t o).isLoading = false := by
  unfold endSessionResolved
  cases o with
  | networkError m => simp [setLoading, showError]
  | response status body =>
    simp only
    split <;> simp [setLoading, showError, updateContent]

/-! ## The shot throttle -/

theorem shotCalls_of_calls (t u : Tracker) (h : u.calls = t.calls) : shotCalls u = shotCalls t := by
  unfold shotCalls
  rw [h]

theorem resume_keeps_shot_clock (t : Tracker) (p : Pending) (o : Outcome) :
    (resume t p o).lastShotTime = t.lastShotTime ∧ shotCalls (resume t p o) = shotCalls t := by
  cases p with
  | check =>
    have h := checkActiveSessionResolved_frame t o
    exact ⟨h.2.2.1, shotCalls_of_calls _ _ h.2.1⟩
  | start =>
    have h := startSessionResolved_frame t o
    exact ⟨h.1, h.2.1⟩
  | load =>
    have h := loadSessionResolved_frame t o
    exact ⟨h.2.2.1, shotCalls_of_calls _ _ h.2.1⟩
  | record =>
    have h := recordShotResolved_frame t o
    exact ⟨h.2.2.1, shotCalls_of_calls _ _ h.2.1⟩
  | undo =>
    have h := undoLastShotResolved_frame t o
    exact ⟨h.2.2.1, shotCalls_of_calls _ _ h.2.1⟩
  | endS =>
    have h := endSessionResolved_frame t o
    exact ⟨h.2.2.1, shotCalls_of_calls _ _ h.2.1⟩

theorem recordShot_throttled (t : Tracker) (isHit : Bool) (now : Int)
    (h : now - t.lastShotTime < minInterval) : recordShot t isHit now = t := by
  unfold recordShot
  cases t.session with
  | none => rfl
  | some s =>
    by_cases hl : t.isLoading = true
    · simp [hl]
    · simp [hl, h]

/-- An event that is not a shot, or is a shot tapped less than `minInterval` after the
last accepted one, leaves `lastShotTime` and the number of shot requests as they were. -/
theorem step_keeps_shot_clock (t : Tracker) (e : Event)
    (h : ∀ isHit now, e = Event.recordShot isHit now → now - t.lastShotTime < minInterval) :
    (step t e).lastShotTime = t.lastShotTime ∧ shotCalls (step t e) = shotCalls t := by
  cases e with
  | checkActiveSession =>
    simp [step, checkActiveSession, apiCall, shotCalls, List.countP_append]
  | startSession =>
    simp only [step, startSession]
    split
    · exact ⟨rfl, rfl⟩
    · simp [apiCall, setLoading, shotCalls, List.countP_append, sessionData]
  | recordShot isHit now =>
    simp only [step]
    rw [recordShot_throttled t isHit now (h isHit now rfl)]
    exact ⟨rfl, rfl⟩
  | undoLastShot =>
    simp only [step, undoLastShot]
    cases t.session with
    | none => exact ⟨rfl, rfl⟩
    | some s =>
      simp only
      split
      · exact ⟨rfl, rfl⟩
      · simp [apiCall, setLoading, shotCalls, List.countP_append]
  | endSession confirmed =>
    simp only [step, endSession]
    cases t.session with
    | none => exact ⟨rfl, rfl⟩
    | some s =>
      simp only
      split
      · exact ⟨rfl, rfl⟩
      · split
        · exact ⟨rfl, rfl⟩
        · simp [apiCall, setLoading, shotCalls, List.countP_append]
  | resolve p o =>
    simp only [step]
    split
    · exact resume_keeps_shot_clock { t with pending := t.pending.erase p } p o
    · exact ⟨rfl, rfl⟩

theorem run_keeps_shot_clock (last : Int) (events : List Event)
    (h : ∀ isHit now, Event.recordShot isHit now ∈ events → now - last < minInterval) :
    ∀ t : Tracker, t.lastShotTime = last →
      (run t events).lastShotTime = last ∧ shotCalls (run t events) = shotCalls t := by
  induction events with
  | nil => intro t ht; exact ⟨ht, rfl⟩
  | cons e l ih =>
    intro t ht
    have hstep := step_keeps_shot_clock t e (fun isHit now he => by
      rw [ht]
      exact h isHit now (by rw [he]; exact List.mem_cons_self _ _))
    have hrest := ih (fun isHit now hm => h isHit now (List.mem_cons_of_mem _ hm))
      (step t e) (hstep.1.trans ht)
    exact ⟨hrest.1, hrest.2.trans hstep.2⟩

/-- Claim C2: when a shot tapped at `t1` is accepted (active session, no call in flight, at
least `minInterval` after the last accepted shot) and another is tapped at `t2` with
`t2 - t1 < 300`, then, whatever happens in between (responses arriving, other methods
invoked, further taps up to `t2`), the first tap issues its request, the second tap
changes nothing, and the two taps together issue exactly one shot request. -/
theorem recordShot_twice_within_interval (t : Tracker) (s : Session) (hit1 hit2 : Bool)
    (t1 t2 : Int) (between : List Event) (hs : t.session = some s)
    (hl : t.isLoading = false) (hacc : minInterval ≤ t1 - t.lastShotTime)
    (hlt : t2 - t1 < 300)
    (hclock : ∀ isHit now, Event.recordShot isHit now ∈ between → now ≤ t2) :
    (recordShot t hit1 t1).calls = t.calls ++ [Request.postEvent s.id hit1] ∧
    recordShot (run (recordShot t hit1 t1) between) hit2 t2 =
      run (recordShot t hit1 t1) between ∧
    shotCalls (run t ([Event.recordShot hit1 t1] ++ between ++ [Event.recordShot hit2 t2])) =
      shotCalls t + 1 := by
  have hfirst : recordShot t hit1 t1 =
      apiCall (setLoading { t with lastShotTime := t1 } true)
        (Request.postEvent s.id hit1) Pending.record := by
    simp only [recordShot, hs, hl, Bool.false_eq_true, if_false]
    rw [if_neg (not_lt.2 hacc)]
  have hmid := run_keeps_shot_clock t1 between
    (fun isHit now hm => by
      have := hclock isHit now hm
      unfold minInterval
      omega)
    (recordShot t hit1 t1) (by rw [hfirst]; rfl)
  have hsecond := step_keeps_shot_clock (run (recordShot t hit1 t1) between)
    (Event.recordShot hit2 t2) (fun isHit now he => by
      cases he
      rw [hmid.1]
      exact hlt)
  have hnoop : recordShot (run (recordShot t hit1 t1) between) hit2 t2 =
      run (recordShot t hit1 t1) between :=
    recordShot_throttled _ hit2 t2 (by rw [hmid.1]; exact hlt)
  refine ⟨by rw [hfirst]; rfl, hnoop, ?_⟩
  have hrun : run t ([Event.recordShot hit1 t1] ++ between ++ [Event.recordShot hit2 t2]) =
      step (run (recordShot t hit1 t1) between) (Event.recordShot hit2 t2) := by
    simp [run, List.foldl_append, step]
  rw [hrun, hsecond.2, hmid.2, hfirst]
  simp [shotCalls, apiCall, setLoading, List.countP_append]

/-- The sample widget is what a page load followed by a successful session check gives. -/
theorem activeTracker_reachable :
    run (init { mode := "practice", matchId := none, inning := none })
      [Event.resolve Pending.check (Outcome.response 200 (Body.object
        { error := ErrorValue.absent, session_id := JSVal.undefined, fields := sampleSession,
          unlocked := [] }))] = activeTracker := by
  decide

/-- Witness for claim C2 on `activeTracker`: taps at 1000 ms and 1200 ms, the response to the
first arriving in between. -/
theorem recordShot_twice_within_interval_witness :
    shotCalls (run activeTracker
      ([Event.recordShot true 1000] ++
        [Event.resolve Pending.record (Outcome.response 200 (Body.object sampleResult))] ++
        [Event.recordShot false 1200])) = shotCalls activeTracker + 1 :=
  (recordShot_twice_within_interval activeTracker sampleSession true false 1000 1200
    [Event.resolve Pending.record (Outcome.response 200 (Body.object sampleResult))]
    rfl rfl (by decide) (by decide) (fun _ _ hm => by simp at hm)).2.2

/-! ## Session check and session end -/

/-- Claim C3: for every status returned to `checkActiveSession`, a 404 sets the session to null
and shows the no-session view, and every other status outside 200 to 299 shows the error
view. -/
theorem checkActiveSession_non_ok_status (t : Tracker) (status : Nat) (body : Body) :
    (status = 404 →
      (checkActiveSessionResolved t (Outcome.response status body)).session = none ∧
      (checkActiveSessionResolved t (Outcome.response status body)).content = View.noSession) ∧
    (isOk status = false → status ≠ 404 →
      (checkActiveSessionResolved t (Outcome.response status body)).content =
        View.error "Failed to load session") := by
  constructor
  · intro h
    subst h
    simp [checkActiveSessionResolved, isOk, updateContent, renderNoSession]
  · intro hok h404
    simp [checkActiveSessionResolved, hok, h404, updateContent, renderError]

/-- Claim C4: on an active session, whatever its `total_shots`, a confirmed `endSession` issues
its request, and when the server answers with a status in 200 to 299 the session is null
and the no-session view is shown, both when the answer arrives at once and in whatever
state `u` the widget is when it arrives. -/
theorem endSession_success_shows_no_session (t : Tracker) (s : Session) (status : Nat)
    (body : Body) (hs : t.session = some s) (hl : t.isLoading = false)
    (hok : isOk status = true) :
    (endSession t true).calls = t.calls ++ [Request.postEnd s.id] ∧
    Pending.endS ∈ (endSession t true).pending ∧
    (run t [Event.endSession true,
      Event.resolve Pending.endS (Outcome.response status body)]).session = none ∧
    (run t [Event.endSession true,
      Event.resolve Pending.endS (Outcome.response status body)]).content = View.noSession ∧
    ∀ u : Tracker,
      (endSessionResolved u (Outcome.response status body)).session = none ∧
      (endSessionResolved u (Outcome.response status body)).content = View.noSession := by
  have hend : endSession t true =
      apiCall (setLoading t true) (Request.postEnd s.id) Pending.endS := by
    simp [endSession, hs, hl]
  have hres : ∀ u : Tracker,
      (endSessionResolved u (Outcome.response status body)).session = none ∧
      (endSessionResolved u (Outcome.response status body)).content = View.noSession := by
    intro u
    simp [endSessionResolved, hok, updateContent, setLoading, renderNoSession]
  have hmem : Pending.endS ∈ (endSession t true).pending := by
    rw [hend]
    simp [apiCall]
  have hrun : run t [Event.endSession true,
      Event.resolve Pending.endS (Outcome.response status body)] =
      endSessionResolved
        { endSession t true with pending := (endSession t true).pending.erase Pending.endS }
        (Outcome.response status body) := by
    simp only [run, List.foldl_cons, List.foldl_nil, step]
    rw [if_pos hmem]
    rfl
  refine ⟨by rw [hend]; rfl, hmem, ?_, ?_, hres⟩
  · rw [hrun]
    exact (hres _).1
  · rw [hrun]
    exact (hres _).2

/-- Witness for claim C4 on `activeTracker`. -/
theorem endSession_success_shows_no_session_witness :
    (run activeTracker [Event.endSession true,
      Event.resolve Pending.endS (Outcome.response 200 Body.null)]).content = View.noSession :=
  (endSession_success_shows_no_session activeTracker sampleSession 200 Body.null rfl rfl
    (by decide)).2.2.2.1

/-! ## The in-flight flag -/

/-- Claim C8 fails on `activeTracker`: a shot is tapped and the server answers 200 with
`sampleResult`. When the call has resolved the flag is false again, yet the view on
display, rendered before the flag was reset, has the Hit, Miss, Undo and End buttons
disabled. -/
theorem recordShot_success_leaves_buttons_disabled :
    activeTracker.isLoading = false ∧
    (run activeTracker [Event.recordShot true 1000,
      Event.resolve Pending.record
        (Outcome.response 200 (Body.object sampleResult))]).isLoading = false ∧
    (run activeTracker [Event.recordShot true 1000,
      Event.resolve Pending.record
        (Outcome.response 200 (Body.object sampleResult))]).pending = [] ∧
    (run activeTracker [Event.recordShot true 1000,
      Event.resolve Pending.record
        (Outcome.response 200 (Body.object sampleResult))]).content =
      View.activeSession
        { hitDisabled := true, missDisabled := true, streak := JSVal.num 4,
          best := JSVal.num 4, shots := JSVal.num 4, hitRate := JSVal.num 1,
          undoDisabled := true, endDisabled := true } := by
  decide

theorem countP_erase_add (g : Pending → Bool) (p : Pending) (l : List Pending) (h : p ∈ l) :
    (l.erase p).countP g + (if g p then 1 else 0) = l.countP g := by
  induction l with
  | nil => cases h
  | cons a l ih =>
    by_cases hap : a = p
    · subst hap
      simp only [List.erase_cons_head, List.countP_cons]
    · have hmem : p ∈ l := by
        rcases List.mem_cons.1 h with h1 | h1
        · exact absurd h1.symm hap
        · exact h1
      have hbeq : (a == p) = false := by simpa using hap
      simp only [List.erase_cons, hbeq, List.countP_cons, Bool.false_eq_true, if_false]
      have := ih hmem
      omega

theorem FlagInv_init (options : Options) : FlagInv (init options) := by
  simp [FlagInv, init, checkActiveSession, apiCall, guardedInFlight, Pending.guarded]

theorem FlagInv_invoke (t u : Tracker) (r : Request) (p : Pending) (hl : t.isLoading = false)
    (h : FlagInv t) (hu : u.pending = t.pending) (hg : p.guarded = true) :
    FlagInv (apiCall (setLoading u true) r p) := by
  unfold FlagInv guardedInFlight at *
  rw [hl] at h
  simp only [Bool.false_eq_true, if_false] at h
  simp [apiCall, setLoading, List.countP_append, hu, h, hg]

theorem FlagInv_finished (t u : Tracker) (p : Pending) (hg : p.guarded = true)
    (hmem : p ∈ t.pending) (h : FlagInv t) (hp : u.pending = t.pending.erase p)
    (hl : u.isLoading = false) : FlagInv u := by
  have hcount := countP_erase_add Pending.guarded p t.pending hmem
  unfold FlagInv guardedInFlight at *
  rw [hp, hl]
  simp only [hg, if_true] at hcount
  simp only [Bool.false_eq_true, if_false]
  split at h <;> omega

theorem FlagInv_reissued (t u : Tracker) (p q : Pending) (hg : p.guarded = true)
    (hq : q.guarded = true) (hmem : p ∈ t.pending) (h : FlagInv t)
    (hp : u.pending = t.pending.erase p ++ [q]) (hl : u.isLoading = t.isLoading) :
    FlagInv u := by
  have hcount := countP_erase_add Pending.guarded p t.pending hmem
  unfold FlagInv guardedInFlight at *
  rw [hp, hl, List.countP_append]
  simp only [hg, if_true] at hcount
  simp only [List.countP_cons, List.countP_nil, hq, if_true]
  cases hl2 : t.isLoading with
  | true =>
    rw [hl2] at h
    simp only [if_true] at h
    simp only [if_true]
    omega
  | false =>
    rw [hl2] at h
    simp only [Bool.false_eq_true, if_false] at h
    omega

theorem FlagInv_step (t : Tracker) (e : Event) (h : FlagInv t) : FlagInv (step t e) := by
  cases e with
  | checkActiveSession =>
    unfold FlagInv guardedInFlight at *
    simpa [step, checkActiveSession, apiCall, List.countP_append, Pending.guarded] using h
  | startSession =>
    simp only [step, startSession]
    cases hl : t.isLoading with
    | true => simpa using h
    | false =>
      simp only [Bool.false_eq_true, if_false]
      exact FlagInv_invoke t t _ Pending.start hl h rfl rfl
  | recordShot isHit now =>
    simp only [step, recordShot]
    cases t.session with
    | none => exact h
    | some s =>
      simp only
      cases hl : t.isLoading with
      | true => simpa using h
      | false =>
        simp only [Bool.false_eq_true, if_false]
        split
        · exact h
        · exact FlagInv_invoke t _ _ Pending.record hl h rfl rfl
  | undoLastShot =>
    simp only [step, undoLastShot]
    cases t.session with
    | none => exact h
    | some s =>
      simp only
      cases hl : t.isLoading with
      | true => simpa using h
      | false =>
        simp only [Bool.false_or]
        split
        · exact h
        · exact FlagInv_invoke t t _ Pending.undo hl h rfl rfl
  | endSession confirmed =>
    simp only [step, endSession]
    cases t.session with
    | none => exact h
    | some s =>
      simp only
      cases hl : t.isLoading with
      | true => simpa using h
      | false =>
        simp only [Bool.false_eq_true, if_false]
        split
        · exact h
        · exact FlagInv_invoke t t _ Pending.endS hl h rfl rfl
  | resolve p o =>
    simp only [step]
    split
    · rename_i hmem
      cases p with
      | check =>
        have hf := checkActiveSessionResolved_frame
          { t with pending := t.pending.erase Pending.check } o
        have hcount := countP_erase_add Pending.guarded Pending.check t.pending hmem
        unfold FlagInv guardedInFlight at *
        simp only [resume, hf.1, hf.2.2.2]
        simp only [Pending.guarded, Bool.false_eq_true, if_false, Nat.add_zero] at hcount
        rw [hcount]
        exact h
      | start =>
        have hf := startSessionResolved_frame
          { t with pending := t.pending.erase Pending.start } o
        rcases hf.2.2 with ⟨h1, h2⟩ | ⟨h1, h2⟩
        · exact FlagInv_finished t _ Pending.start rfl hmem h h1 h2
        · exact FlagInv_reissued t _ Pending.start Pending.load rfl rfl hmem h h1 h2
      | load =>
        have hf := loadSessionResolved_frame
          { t with pending := t.pending.erase Pending.load } o
        exact FlagInv_finished t _ Pending.load rfl hmem h hf.1 hf.2.2.2
      | record =>
        have hf := recordShotResolved_frame
          { t with pending := t.pending.erase Pending.record } o
        exact FlagInv_finished t _ Pending.record rfl hmem h hf.1 hf.2.2.2
      | undo =>
        have hf := undoLastShotResolved_frame
          { t with pending := t.pending.erase Pending.undo } o
        exact FlagInv_finished t _ Pending.undo rfl hmem h hf.1 hf.2.2.2
      | endS =>
        have hf := endSessionResolved_frame
          { t with pending := t.pending.erase Pending.endS } o
        exact FlagInv_finished t _ Pending.endS rfl hmem h hf.1 hf.2.2.2
    · exact h

theorem FlagInv_run (events : List Event) :
    ∀ t : Tracker, FlagInv t → FlagInv (run t events) := by
  induction events with
  | nil => intro t h; exact h
  | cons e l ih => intro t h; exact ih _ (FlagInv_step t e h)

theorem mutatingInFlight_le_guarded (t : Tracker) : mutatingInFlight t ≤ guardedInFlight t := by
  unfold mutatingInFlight guardedInFlight
  apply List.countP_mono_left
  intro p _ hp
  cases p <;> simp_all [Pending.mutating, Pending.guarded]

/-- Claim C9: while the in-flight flag is set, `startSession`, `recordShot`, `undoLastShot` and
`endSession` return the widget as it is (no request issued; snapshot, `lastShotTime` and
flag untouched), and in every state the widget reaches from its construction at most one
mutating request is in flight. -/
theorem guarded_methods_return_while_loading :
    (∀ t : Tracker, t.isLoading = true → ∀ (isHit : Bool) (now : Int) (confirmed : Bool),
      startSession t = t ∧ recordShot t isHit now = t ∧ undoLastShot t = t ∧
      endSession t confirmed = t) ∧
    (∀ (options : Options) (events : List Event),
      mutatingInFlight (run (init options) events) ≤ 1) := by
  constructor
  · intro t hl isHit now confirmed
    refine ⟨by simp [startSession, hl], ?_, ?_, ?_⟩
    · unfold recordShot
      cases t.session <;> simp [hl]
    · unfold undoLastShot
      cases t.session <;> simp [hl]
    · unfold endSession
      cases t.session <;> simp [hl]
  · intro options events
    have h := FlagInv_run events (init options) (FlagInv_init options)
    have hle := mutatingInFlight_le_guarded (run (init options) events)
    unfold FlagInv at h
    split at h <;> omega

/-- Witness for claim C9: with a shot in flight on `activeTracker`, a start, a second tap,
an undo and a confirmed end all leave the widget as it is. -/
theorem guarded_methods_return_while_loading_witness :
    (recordShot activeTracker true 1000).isLoading = true ∧
    startSession (recordShot activeTracker true 1000) = recordShot activeTracker true 1000 ∧
    recordShot (recordShot activeTracker true 1000) false 5000 =
      recordShot activeTracker true 1000 ∧
    undoLastShot (recordShot activeTracker true 1000) = recordShot activeTracker true 1000 ∧
    endSession (recordShot activeTracker true 1000) true = recordShot activeTracker true 1000 :=
  ⟨by decide,
   guarded_methods_return_while_loading.1 (recordShot activeTracker true 1000) (by decide)
     false 5000 true⟩

theorem isLoading_of_guarded_pending (t : Tracker) (p : Pending) (h : FlagInv t)
    (hg : p.guarded = true) (hmem : p ∈ t.pending) : t.isLoading = true := by
  have hcount := countP_erase_add Pending.guarded p t.pending hmem
  unfold FlagInv guardedInFlight at h
  simp only [hg, if_true] at hcount
  cases hl : t.isLoading with
  | true => rfl
  | false =>
    rw [hl] at h
    simp only [Bool.false_eq_true, if_false] at h
    omega

/-- In every state the widget reaches from its construction, a successful response to a
pending shot leaves the flag clear and a view whose Hit, Miss and End buttons are
disabled. -/
theorem buttons_disabled_after_successful_shot (options : Options) (events : List Event)
    (s : Session) (status : Nat) (result : JsonObject)
    (hmem : Pending.record ∈ (run (init options) events).pending)
    (hs : (run (init options) events).session = some s) (hok : isOk status = true) :
    (step (run (init options) events) (Event.resolve Pending.record
      (Outcome.response status (Body.object result)))).isLoading = false ∧
    ∃ v, (step (run (init options) events) (Event.resolve Pending.record
      (Outcome.response status (Body.object result)))).content = View.activeSession v ∧
      v.hitDisabled = true ∧ v.missDisabled = true ∧ v.endDisabled = true := by
  have hl := isLoading_of_guarded_pending _ Pending.record
    (FlagInv_run events (init options) (FlagInv_init options)) rfl hmem
  simp only [step]
  rw [if_pos hmem]
  simp [resume, recordShotResolved, hok, hs, hl, foldl_showAchievement, updateContent,
    setLoading, renderActiveSession]

/-! ## Server-authoritative statistics -/

/-- Claim C10, as the code has it: on a session that is active when the response arrives,
a response with a status in 200 to 299 whose body is a JSON object makes `recordShot` and
`undoLastShot` set the five numeric fields of the snapshot to the values of the body
(`undefined` for a property the body lacks), leave `id`, `mode`, `match_id` and `inning`
as they were, and show the active-session view with the statistics of the body. -/
theorem shot_response_replaces_numeric_fields (t : Tracker) (s : Session) (status : Nat)
    (result : JsonObject) (hs : t.session = some s) (hok : isOk status = true) :
    (∀ u : Tracker,
      (u = recordShotResolved t (Outcome.response status (Body.object result)) ∨
       u = undoLastShotResolved t (Outcome.response status (Body.object result))) →
      ∃ (s1 : Session) (v : ActiveView),
        u.session = some s1 ∧
        s1.total_shots = result.fields.total_shots ∧
        s1.total_hits = result.fields.total_hits ∧
        s1.current_streak = result.fields.current_streak ∧
        s1.best_streak = result.fields.best_streak ∧
        s1.hit_rate = result.fields.hit_rate ∧
        s1.id = s.id ∧ s1.mode = s.mode ∧ s1.match_id = s.match_id ∧ s1.inning = s.inning ∧
        u.content = View.activeSession v ∧
        v.shots = result.fields.total_shots.orZero ∧
        v.streak = result.fields.current_streak.orZero ∧
        v.best = result.fields.best_streak.orZero ∧
        v.hitRate = result.fields.hit_rate.orZero) := by
  intro u hu
  rcases hu with hu | hu
  · subst hu
    simp [recordShotResolved, hok, hs, foldl_showAchievement, updateContent, setLoading,
      renderActiveSession, updateSessionData]
  · subst hu
    simp [undoLastShotResolved, hok, hs, updateContent, setLoading,
      renderActiveSession, updateSessionData]

/-- Witness for claim C10 on `activeTracker` with a shot in flight and `sampleResult` as the
body of the response. -/
theorem shot_response_replaces_numeric_fields_witness :
    ∃ (s1 : Session) (v : ActiveView),
      (recordShotResolved (recordShot activeTracker true 1000)
        (Outcome.response 200 (Body.object sampleResult))).session = some s1 ∧
      s1.total_shots = JSVal.num 4 ∧
      (recordShotResolved (recordShot activeTracker true 1000)
        (Outcome.response 200 (Body.object sampleResult))).content = View.activeSession v ∧
      v.shots = JSVal.num 4 := by
  obtain ⟨s1, v, h1, h2, _, _, _, _, _, _, _, _, h3, h4, _⟩ :=
    shot_response_replaces_numeric_fields (recordShot activeTracker true 1000) sampleSession 200
      sampleResult (by decide) (by decide) _ (Or.inl rfl)
  exact ⟨s1, v, h1, h2, h3, by rw [h4]; decide⟩

/-- Claim C10 as stated fails on `activeTracker`: a shot is tapped and the server answers
status 200 with the body `null`, or status 204 with an empty body that does not parse.
Either way the snapshot keeps its three shots, the view is not rendered again, and an
alert is shown. The same happens to `undoLastShot` with the body `null`. -/
theorem shot_response_counterexample :
    isOk 200 = true ∧ isOk 204 = true ∧
    (run activeTracker [Event.recordShot true 1000,
      Event.resolve Pending.record (Outcome.response 200 Body.null)]).session =
      some sampleSession ∧
    (run activeTracker [Event.recordShot true 1000,
      Event.resolve Pending.record (Outcome.response 200 Body.null)]).content =
      activeTracker.content ∧
    (run activeTracker [Event.recordShot true 1000,
      Event.resolve Pending.record (Outcome.response 200 Body.null)]).alerts =
      ["Error: " ++ nullAccessMessage] ∧
    (run activeTracker [Event.recordShot true 1000,
      Event.resolve Pending.record (Outcome.response 204
        (Body.unparsable "Unexpected end of JSON input"))]).session = some sampleSession ∧
    (run activeTracker [Event.recordShot true 1000,
      Event.resolve Pending.record (Outcome.response 204
        (Body.unparsable "Unexpected end of JSON input"))]).content =
      activeTracker.content ∧
    (run activeTracker [Event.recordShot true 1000,
      Event.resolve Pending.record (Outcome.response 204
        (Body.unparsable "Unexpected end of JSON input"))]).alerts =
      ["Error: Unexpected end of JSON input"] ∧
    (run activeTracker [Event.undoLastShot,
      Event.resolve Pending.undo (Outcome.response 200 Body.null)]).session =
      some sampleSession ∧
    (run activeTracker [Event.undoLastShot,
      Event.resolve Pending.undo (Outcome.response 200 Body.null)]).alerts =
      ["Error: " ++ nullAccessMessage] := by
  decide

/-! ## Error responses -/

/-- Claim C11, as the code has it: for every response to `startSession`, `recordShot`,
`undoLastShot` or `endSession` whose status is outside 200 to 299, the snapshot is left
as it was and the in-flight flag is false afterwards; when the body is a JSON object, the
alert reads `Error: ` followed by its `error` value when that is truthy (the string itself
when it is a non-empty string, its string conversion when it is any other truthy value),
and by the static fallback string of the method when it is absent, falsy or empty. -/
theorem non_ok_response_alert (t : Tracker) (p : Pending) (status : Nat) (body : Body)
    (hp : p.mutating = true) (hnok : isOk status = false) :
    (resume t p (Outcome.response status body)).session = t.session ∧
    (resume t p (Outcome.response status body)).isLoading = false ∧
    ∀ j : JsonObject, body = Body.object j →
      (∀ e : String, j.error = ErrorValue.text e → e ≠ "" →
        (resume t p (Outcome.response status body)).alerts = t.alerts ++ ["Error: " ++ e]) ∧
      (∀ shown : String, j.error = ErrorValue.other shown →
        (resume t p (Outcome.response status body)).alerts =
          t.alerts ++ ["Error: " ++ shown]) ∧
      ((j.error = ErrorValue.absent ∨ j.error = ErrorValue.text "") →
        (resume t p (Outcome.response status body)).alerts =
          t.alerts ++ ["Error: " ++ fallbackMessage p]) := by
  have key : (resume t p (Outcome.response status body)).session = t.session ∧
      (resume t p (Outcome.response status body)).isLoading = false ∧
      (resume t p (Outcome.response status body)).alerts =
        t.alerts ++ ["Error: " ++ errorMessage body (fallbackMessage p)] := by
    cases p with
    | check => cases hp
    | load => cases hp
    | start =>
      simp [resume, startSessionResolved, hnok, setLoading, showError, fallbackMessage]
    | record =>
      simp [resume, recordShotResolved, hnok, setLoading, showError, fallbackMessage]
    | undo =>
      simp [resume, undoLastShotResolved, hnok, setLoading, showError, fallbackMessage]
    | endS =>
      simp [resume, endSessionResolved, hnok, setLoading, showError, fallbackMessage]
  refine ⟨key.1, key.2.1, fun j hj => ?_⟩
  subst hj
  rw [key.2.2]
  refine ⟨fun e he hne => ?_, fun shown hs => ?_, fun h => ?_⟩
  · simp [errorMessage, he, hne]
  · simp [errorMessage, hs]
  · rcases h with h | h <;> simp [errorMessage, h]

/-- Witness for claim C11: a shot in flight on `activeTracker` answered by status 400 with
`sampleError` as body. -/
theorem non_ok_response_alert_witness :
    (resume (recordShot activeTracker true 1000) Pending.record
      (Outcome.response 400 (Body.object sampleError))).alerts =
      ["Error: Session already ended"] :=
  ((non_ok_response_alert (recordShot activeTracker true 1000) Pending.record 400
    (Body.object sampleError) rfl (by decide)).2.2 sampleError rfl).1
    "Session already ended" rfl (by decide)

/-- Claim C11 as stated fails on `activeTracker`, in two ways. A shot is tapped and the
server answers status 500 with a body that is not JSON: the response supplies no error
string, yet the alert carries the message of the parser, not the fallback
`Failed to record shot`. Or the server answers status 400 with the body
`numericError`: the response supplies no error string either, and the alert carries the
number converted to a string. -/
theorem non_ok_response_alert_counterexample :
    isOk 500 = false ∧ isOk 400 = false ∧
    (run activeTracker [Event.recordShot true 1000,
      Event.resolve Pending.record (Outcome.response 500
        (Body.unparsable "Unexpected token < in JSON at position 0"))]).alerts =
      ["Error: Unexpected token < in JSON at position 0"] ∧
    (run activeTracker [Event.recordShot true 1000,
      Event.resolve Pending.record (Outcome.response 500
        (Body.unparsable "Unexpected token < in JSON at position 0"))]).alerts ≠
      ["Error: " ++ fallbackMessage Pending.record] ∧
    (run activeTracker [Event.recordShot true 1000,
      Event.resolve Pending.record (Outcome.response 500
        (Body.unparsable "Unexpected token < in JSON at position 0"))]).alerts ≠
      [fallbackMessage Pending.record] ∧
    (run activeTracker [Event.recordShot true 1000,
      Event.resolve Pending.record (Outcome.response 400
        (Body.object numericError))]).alerts = ["Error: 42"] ∧
    (run activeTracker [Event.recordShot true 1000,
      Event.resolve Pending.record (Outcome.response 400
        (Body.object numericError))]).alerts ≠
      ["Error: " ++ fallbackMessage Pending.record] := by
  decide

/-! ## Spacing of the shot requests -/

theorem recordShot_lastShotTime (t : Tracker) (isHit : Bool) (now : Int) :
    (recordShot t isHit now = t) ∨
    (t.lastShotTime + minInterval ≤ now ∧ (recordShot t isHit now).lastShotTime = now) := by
  unfold recordShot
  cases t.session with
  | none => exact Or.inl rfl
  | some s =>
    by_cases hl : t.isLoading = true
    · exact Or.inl (by simp [hl])
    · by_cases hlt : now - t.lastShotTime < minInterval
      · exact Or.inl (by simp [hl, hlt])
      · refine Or.inr ⟨by omega, ?_⟩
        simp [hl, hlt, apiCall, setLoading]

theorem step_lastShotTime_mono (t : Tracker) (e : Event) :
    t.lastShotTime ≤ (step t e).lastShotTime := by
  by_cases he : ∃ isHit now, e = Event.recordShot isHit now
  · obtain ⟨isHit, now, rfl⟩ := he
    simp only [step]
    rcases recordShot_lastShotTime t isHit now with h | ⟨h1, h2⟩
    · rw [h]
    · rw [h2]
      unfold minInterval at h1
      omega
  · have h := step_keeps_shot_clock t e (fun isHit now hh => absurd ⟨isHit, now, hh⟩ he)
    rw [h.1]

theorem tapIssuing_bound (t : Tracker) (e : Event) (b : Int) (hb : b ∈ tapIssuing t e) :
    t.lastShotTime + minInterval ≤ b ∧ (step t e).lastShotTime = b := by
  cases e with
  | recordShot isHit now =>
    simp only [tapIssuing] at hb
    split at hb
    · rename_i hcalls
      simp only [List.mem_singleton] at hb
      subst hb
      simp only [step]
      rcases recordShot_lastShotTime t isHit b with h | h
      · rw [h] at hcalls
        exact absurd rfl hcalls
      · exact h
    · cases hb
  | checkActiveSession => cases hb
  | startSession => cases hb
  | undoLastShot => cases hb
  | endSession confirmed => cases hb
  | resolve p o => cases hb

theorem issuingTaps_bound (events : List Event) :
    ∀ (t : Tracker) (b : Int), b ∈ issuingTaps t events → t.lastShotTime + minInterval ≤ b := by
  induction events with
  | nil => intro t b hb; cases hb
  | cons e rest ih =>
    intro t b hb
    simp only [issuingTaps, List.mem_append] at hb
    rcases hb with hb | hb
    · exact (tapIssuing_bound t e b hb).1
    · have h1 := ih (step t e) b hb
      have h2 := step_lastShotTime_mono t e
      omega

/-- Claim C12: in every sequence of events (taps at any clock readings, responses
arriving, other methods invoked), from every state of the widget, any two taps that each
issue a request have clock readings at least 300 ms apart, the later one being the
larger. The clock readings need not even be non-decreasing. -/
theorem issuing_taps_spaced (t : Tracker) (events : List Event) :
    (issuingTaps t events).Pairwise (fun a b => a + 300 ≤ b) := by
  induction events generalizing t with
  | nil => exact List.Pairwise.nil
  | cons e rest ih =>
    simp only [issuingTaps]
    rw [List.pairwise_append]
    refine ⟨?_, ih (step t e), fun a ha b hb => ?_⟩
    · cases e with
      | recordShot isHit now =>
        simp only [tapIssuing]
        split
        · exact List.pairwise_singleton _ _
        · exact List.Pairwise.nil
      | checkActiveSession => exact List.Pairwise.nil
      | startSession => exact List.Pairwise.nil
      | undoLastShot => exact List.Pairwise.nil
      | endSession confirmed => exact List.Pairwise.nil
      | resolve p o => exact List.Pairwise.nil
    · have h1 := (tapIssuing_bound t e a ha).2
      have h2 := issuingTaps_bound rest (step t e) b hb
      unfold minInterval at h2
      omega

/-! ## Undo with no shot recorded -/

/-- Claim C13: when the snapshot has `total_shots` equal to zero, `undoLastShot` returns
the widget as it is (no request issued, snapshot and in-flight flag untouched), and the
active-session view of that state has its Undo button disabled. -/
theorem undoLastShot_zero_shots (t : Tracker) (s : Session) (hs : t.session = some s)
    (hz : s.total_shots = JSVal.num 0) :
    undoLastShot t = t ∧
    (undoLastShot t).calls = t.calls ∧
    (undoLastShot t).session = t.session ∧
    (undoLastShot t).isLoading = t.isLoading ∧
    ∃ v, renderActiveSession t = View.activeSession v ∧ v.undoDisabled = true := by
  have hzero : s.total_shots.isZero = true := by simp [JSVal.isZero, hz]
  have hu : undoLastShot t = t := by simp [undoLastShot, hs, hzero]
  refine ⟨hu, by rw [hu], by rw [hu], by rw [hu], ?_⟩
  simp [renderActiveSession, hs, hzero]

/-- Witness for claim C13 on `freshTracker`, whose snapshot has no shot. -/
theorem undoLastShot_zero_shots_witness :
    undoLastShot freshTracker = freshTracker ∧
    ∃ v, renderActiveSession freshTracker = View.activeSession v ∧ v.undoDisabled = true :=
  ⟨(undoLastShot_zero_shots freshTracker freshSession rfl rfl).1,
   (undoLastShot_zero_shots freshTracker freshSession rfl rfl).2.2.2.2⟩

/-- Witness for claim C12 on `activeTracker`: of five taps, with the response to the first
arriving after the second, only those at 1000 ms and 1300 ms issue a request. -/
theorem issuing_taps_spaced_witness :
    issuingTaps activeTracker
      [Event.recordShot true 1000, Event.recordShot true 1100,
        Event.resolve Pending.record (Outcome.response 200 (Body.object sampleResult)),
        Event.recordShot false 1200, Event.recordShot false 1300,
        Event.recordShot false 1301] = [1000, 1300] ∧
    (issuingTaps activeTracker
      [Event.recordShot true 1000, Event.recordShot true 1100,
        Event.resolve Pending.record (Outcome.response 200 (Body.object sampleResult)),
        Event.recordShot false 1200, Event.recordShot false 1300,
        Event.recordShot false 1301]).Pairwise (fun a b => a + 300 ≤ b) :=
  ⟨by decide, issuing_taps_spaced _ _⟩

end ShotTracker
